import Mathlib

/-
  Verification development for the Deltabots unified log API (src/app.py).
  The Flask handlers are shallowly embedded as pure Lean functions: the
  request is a record of the observable inputs, external effects (the
  MongoDB collections, the Python datetime library, the clock) are passed
  in explicitly, and each handler returns a value describing the HTTP
  response together with the document it persists, when any.
-/

set_option linter.unusedVariables false

namespace ApiLog

/-- JSON values as delivered by request.json / stored in documents. -/
inductive JValue where
  | null
  | bool (b : Bool)
  | num (n : Int)
  | str (s : String)
  | arr (elems : List JValue)
  | obj (fields : List (String × JValue))

/-- Python truthiness of a JSON value (used by the source in if-not tests). -/
def jvalTruthy : JValue → Bool
  | .null => false
  | .bool b => b
  | .num n => n != 0
  | .str s => s != ""
  | .arr l => !l.isEmpty
  | .obj l => !l.isEmpty

/-- Truthiness of dict.get result: None is falsy. -/
def optJvalTruthy : Option JValue → Bool
  | none => false
  | some v => jvalTruthy v

/-- Truthiness of request.args.get / headers.get result: None and the empty
    string are falsy. -/
def optStrTruthy : Option String → Bool
  | none => false
  | some s => s != ""

/-- Python str() rendering of a JSON value. The source only applies it to the
    value of the type field before lowercasing and comparing against rpa and
    ipaas; the container renderings are placeholders that can never compare
    equal to either keyword, which is all the embedding relies on. -/
def pyStr : JValue → String
  | .null => "None"
  | .bool true => "True"
  | .bool false => "False"
  | .num n => toString n
  | .str s => s
  | .arr _ => "[...]"
  | .obj _ => "(dict)"

/-- Python str.lower on the ASCII strings the service compares against. -/
def pyLower (s : String) : String := String.mk (s.data.map Char.toLower)

/-
  Naive Python datetimes are represented as microseconds since a fixed epoch:
  this is a bijection on the library range, wall-clock components are
  recovered by floor division and timedelta(days=1) is addition of
  86400000000 microseconds.
-/

def usPerDay : Int := 86400000000

def microsecondOf (t : Int) : Int := t % 1000000

def secondOf (t : Int) : Int := (t / 1000000) % 60

def minuteOf (t : Int) : Int := (t / 60000000) % 60

def hourOf (t : Int) : Int := (t / 3600000000) % 24

/-- Result of a successful datetime.fromisoformat call: tLocal encodes the
    wall-clock components of the parsed datetime (as microseconds since the
    epoch), offsetUs its utcoffset when the parse produced an aware value. -/
structure FullParse where
  tLocal : Int
  offsetUs : Option Int

/-- The Python datetime library calls used by parse_date, abstracted as
    oracles so that parse_date itself can be stated and proved for every
    library behaviour. localToUtc models astimezone(utc) on a naive value
    (interpretation in the server local zone); strptime with the fixed
    format YYYY-MM-DD always produces a midnight instant, recorded as the
    invariant strptime_midnight. -/
structure PyLib where
  fromisoformat : String → Option FullParse
  strptimeDate : String → Option Int
  localToUtc : Int → Int
  strptime_midnight : ∀ s d, strptimeDate s = some d → d % usPerDay = 0

/-- Embeds date_str.replace(Z, +00:00) from the source: every Z character is
    replaced by the six characters of +00:00. -/
def replaceZchars : List Char → List Char
  | [] => []
  | c :: cs =>
    if c = 'Z' then '+' :: '0' :: '0' :: ':' :: '0' :: '0' :: replaceZchars cs
    else c :: replaceZchars cs

def replaceZ (s : String) : String := String.mk (replaceZchars s.data)

/-- dt.astimezone(utc).replace(tzinfo=None): subtract the explicit offset of
    an aware value, interpret a naive value in the server local zone. -/
def toUtc (lib : PyLib) (f : FullParse) : Int :=
  match f.offsetUs with
  | some o => f.tLocal - o
  | none => lib.localToUtc f.tLocal

/-- Embeds parse_date from src/app.py lines 87-108: try a full ISO parse
    (after the Z replacement), normalize to naive UTC and report whether any
    wall-clock component of the parsed value is non-zero; on failure fall
    back to a date-only strptime parse reported as implicit midnight; on both
    failures return None. -/
def parse_date (lib : PyLib) (date_str : String) : Option Int × Bool :=
  if date_str = "" then (none, false)
  else
    match lib.fromisoformat (replaceZ date_str) with
    | some dt =>
      let dt_utc := toUtc lib dt
      let time_provided := decide (hourOf dt.tLocal ≠ 0 ∨ minuteOf dt.tLocal ≠ 0 ∨
        secondOf dt.tLocal ≠ 0 ∨ microsecondOf dt.tLocal ≠ 0)
      (some dt_utc, time_provided)
    | none =>
      match lib.strptimeDate date_str with
      | some d => (some d, false)
      | none => (none, false)

/-- Outcome of the require_api_key decorator: pass through, or a JSON error
    response with its status code. -/
inductive AuthDecision where
  | allow
  | deny (status : Nat) (error : String) (message : String)
deriving DecidableEq

def msgKeyMissing : String := "Header \x27X-API-Key\x27 ausente na requisição."

def msgKeyInvalid : String := "Chave de API inválida."

/-- Embeds require_api_key from src/app.py lines 35-50. The header value is
    Option String (headers.get); the first test is Python truthiness, so an
    empty header value takes the 401 branch. -/
def require_api_key (api_key : Option String) (real_api_key : String) : AuthDecision :=
  if !optStrTruthy api_key then .deny 401 "Acesso negado" msgKeyMissing
  else if api_key ≠ some real_api_key then .deny 403 "Acesso negado" msgKeyInvalid
  else .allow

/-- The process environment of one request: configuration, connection state
    and external effects (clock, datetime library, insert outcome). -/
structure Env where
  realKey : String
  clientUp : Bool
  rpaUp : Bool
  ipaasUp : Bool
  pingOk : Bool
  now : Int
  nowLocalIso : String
  lib : PyLib
  insertOutcome : Except String String

inductive HttpMethod where
  | get
  | post
deriving DecidableEq

/-- Observable inputs of one HTTP request. jsonBody is none when the body is
    not a JSON object (the source catches the resulting exception). -/
structure Request where
  method : HttpMethod
  path : String
  apiKey : Option String
  jsonBody : Option (List (String × JValue))
  args : List (String × String)
  remoteAddr : String

/-- The document built by the POST handler and handed to insert_one. -/
structure LogDocument where
  timestamp_utc : Option Int
  source_ip : String
  log_type : String
  level : Option JValue := none
  message : Option JValue := none
  ipaas_codigo : Option JValue := none
  execution_details : Option JValue := none

/-- Response of the POST /logs handler: an error response, a 201 with the
    persisted document, or a 500 when insert_one raised (nothing persisted). -/
inductive PostResult where
  | err (status : Nat) (error : String) (message : Option String)
  | created (log_id : String) (log_type_processed : String) (doc : LogDocument)
  | writeErr (details : String)

/-- collection.insert_one and the 201/500 branches of the source. -/
def do_insert (env : Env) (log_type : String) (doc : LogDocument) : PostResult :=
  match env.insertOutcome with
  | .ok oid => .created oid log_type doc
  | .error e => .writeErr e

/-- Tests isinstance(v, str) and non-emptiness, as the ipaas_codigo check. -/
def isNonEmptyStr : JValue → Bool
  | .str s => s != ""
  | _ => false

/-- Embeds receive_unified_log from src/app.py lines 116-185. Note that the
    isinstance(execution_data, dict) test of the source has an empty body
    (pass), so no constraint on the data field is enforced; the embedding
    reproduces that faithfully. -/
def receive_unified_log (env : Env) (req : Request) : PostResult :=
  if !env.rpaUp || !env.ipaasUp then
    .err 503 "Serviço indisponível. Conexão com o banco de dados falhou." none
  else
    match req.jsonBody with
    | none => .err 400 "Corpo da requisição não é um JSON válido ou erro interno." none
    | some data =>
      let log_type0 := data.lookup "type"
      if !optJvalTruthy log_type0 then
        .err 400 "Requisição inválida."
          (some "O campo \x27type\x27 é obrigatório no JSON (\x27rpa\x27 ou \x27ipaas\x27).")
      else
        let log_type := pyLower (pyStr (log_type0.getD .null))
        let base : LogDocument :=
          { timestamp_utc := some env.now, source_ip := req.remoteAddr, log_type := log_type }
        if log_type = "rpa" then
          if (data.lookup "message").isNone || (data.lookup "level").isNone then
            .err 400 "Requisição inválida para type=\x27rpa\x27."
              (some "Logs do tipo \x27rpa\x27 devem conter \x27level\x27 e \x27message\x27.")
          else
            do_insert env log_type
              { base with level := data.lookup "level", message := data.lookup "message" }
        else if log_type = "ipaas" then
          if (data.lookup "ipaas_codigo").isNone || (data.lookup "data").isNone then
            .err 400 "Requisição inválida para type=\x27ipaas\x27."
              (some "Logs do tipo \x27ipaas\x27 devem conter \x27ipaas_codigo\x27 e \x27data\x27.")
          else
            let ipaas_codigo := (data.lookup "ipaas_codigo").getD .null
            let execution_data := (data.lookup "data").getD .null
            if !isNonEmptyStr ipaas_codigo then
              .err 400 "Requisição inválida."
                (some "\x27ipaas_codigo\x27 deve ser uma string não vazia.")
            else
              do_insert env log_type
                { base with ipaas_codigo := some ipaas_codigo,
                            execution_details := some execution_data }
        else
          .err 400 "Tipo de log inválido."
            (some "O campo \x27type\x27 deve ser \x27rpa\x27 ou \x27ipaas\x27.")

/-- The timestamp_utc range constraints of the Mongo query dict. -/
structure DateQ where
  gte : Option Int := none
  lt : Option Int := none
  lte : Option Int := none
deriving DecidableEq

/-- The Mongo filter built by the GET handler: at most one equality
    constraint on a (possibly dotted) field path, plus the date range. -/
structure MongoQuery where
  codeField : Option (String × String) := none
  date : DateQ := {}
deriving DecidableEq

inductive LogCategory where
  | rpa
  | ipaas
deriving DecidableEq

/-- Response of the GET /logs handler up to the database call: an error
    response, or the applied filters, resolved category and built query. -/
inductive GetResult where
  | err (status : Nat) (error : String) (message : Option String)
  | ok (filters : List (String × String)) (cat : LogCategory) (query : MongoQuery)
deriving DecidableEq

/-- request.args.get: first binding of the key. -/
def argsGet (args : List (String × String)) (key : String) : Option String :=
  args.lookup key

def msgBadInicio : String := "Formato de data inválido para \x27data_inicio\x27."

def msgBadFim : String := "Formato de data inválido para \x27data_fim\x27."

/-- Embeds the data_inicio block of get_unified_logs (src/app.py lines
    232-238): a truthy data_inicio contributes an inclusive lower bound, a
    parse failure aborts with the 400 message naming data_inicio. -/
def inicioQuery (lib : PyLib) (inicio : Option String) : Except String DateQ :=
  if optStrTruthy inicio then
    match parse_date lib (inicio.getD "") with
    | (some d, _) => .ok { gte := some d }
    | (none, _) => .error msgBadInicio
  else .ok {}

/-- Embeds the data_fim block of get_unified_logs (src/app.py lines
    240-250): a truthy data_fim contributes an exclusive upper bound one day
    past the parsed instant when no time component was provided, an inclusive
    upper bound at the exact instant otherwise; a parse failure aborts with
    the 400 message naming data_fim. -/
def fimQuery (lib : PyLib) (fim : Option String) (dq : DateQ) : Except String DateQ :=
  if optStrTruthy fim then
    match parse_date lib (fim.getD "") with
    | (some d, tp) =>
      if !tp then .ok { dq with lt := some (d + usPerDay) }
      else .ok { dq with lte := some d }
    | (none, _) => .error msgBadFim
  else .ok dq

/-- The whole date filter block, lines 230-253 of src/app.py. -/
def buildDateQuery (lib : PyLib) (inicio fim : Option String) : Except String DateQ :=
  match inicioQuery lib inicio with
  | .error e => .error e
  | .ok dq => fimQuery lib fim dq

/-- The filter construction shared by both categories of get_unified_logs
    (src/app.py lines 218-253): the code filter key and mapped field path are
    supplied by the dispatching branch. -/
def logs_query (lib : PyLib) (args : List (String × String))
    (code_filter_key code_db_field log_type : String) (cat : LogCategory) : GetResult :=
  let code_filter_value := argsGet args code_filter_key
  let codeField : Option (String × String) :=
    if optStrTruthy code_filter_value then some (code_db_field, code_filter_value.getD "")
    else none
  let applied :=
    [("type", log_type)]
      ++ (if optStrTruthy code_filter_value then [(code_filter_key, code_filter_value.getD "")] else [])
      ++ (if optStrTruthy (argsGet args "data_inicio") then
            [("data_inicio", (argsGet args "data_inicio").getD "")] else [])
      ++ (if optStrTruthy (argsGet args "data_fim") then
            [("data_fim", (argsGet args "data_fim").getD "")] else [])
  match buildDateQuery lib (argsGet args "data_inicio") (argsGet args "data_fim") with
  | .error e => .err 400 e none
  | .ok dq => .ok applied cat { codeField := codeField, date := dq }

def msgTypeMissing : String := "O parâmetro de query \x27type\x27 é obrigatório (\x27rpa\x27 ou \x27ipaas\x27)."

def msgTypeInvalid : String := "O parâmetro \x27type\x27 deve ser \x27rpa\x27 ou \x27ipaas\x27."

/-- Embeds get_unified_logs from src/app.py lines 194-257, up to the database
    execution (modelled separately by executeFind). -/
def get_unified_logs (env : Env) (args : List (String × String)) : GetResult :=
  let log_type0 := argsGet args "type"
  if !optStrTruthy log_type0 then
    .err 400 "Parâmetro ausente." (some msgTypeMissing)
  else
    let log_type := pyLower (log_type0.getD "")
    if log_type = "rpa" then
      if !env.rpaUp then
        .err 503 "Serviço indisponível (RPA). Conexão com o banco de dados falhou." none
      else logs_query env.lib args "robo_codigo" "message.summary.robo_codigo" log_type .rpa
    else if log_type = "ipaas" then
      if !env.ipaasUp then
        .err 503 "Serviço indisponível (iPaaS). Conexão com o banco de dados falhou." none
      else logs_query env.lib args "ipaas_codigo" "ipaas_codigo" log_type .ipaas
    else
      .err 400 "Tipo de log inválido." (some msgTypeInvalid)

/-- A document as stored in a collection: insertion timestamp plus the other
    top-level fields. -/
structure StoredDoc where
  timestamp_utc : Int
  fields : List (String × JValue)

/-- Splits a dotted Mongo field path into its segments. -/
def splitDotAux : List Char → List Char → List (List Char)
  | [], acc => [acc.reverse]
  | c :: cs, acc =>
    if c = '.' then acc.reverse :: splitDotAux cs [] else splitDotAux cs (c :: acc)

def splitDot (s : String) : List String := (splitDotAux s.data []).map String.mk

/-- Follows a field path through nested objects. -/
def lookupPath : List String → List (String × JValue) → Option JValue
  | [], _ => none
  | [k], fs => fs.lookup k
  | k :: ks, fs =>
    match fs.lookup k with
    | some (.obj gs) => lookupPath ks gs
    | _ => none

/-- Whether a stored document matches the built Mongo filter. -/
def docMatches (q : MongoQuery) (d : StoredDoc) : Bool :=
  (match q.codeField with
   | none => true
   | some (path, v) =>
     match lookupPath (splitDot path) d.fields with
     | some (.str s) => s == v
     | _ => false) &&
  (match q.date.gte with | none => true | some b => decide (b ≤ d.timestamp_utc)) &&
  (match q.date.lt with | none => true | some b => decide (d.timestamp_utc < b)) &&
  (match q.date.lte with | none => true | some b => decide (d.timestamp_utc ≤ b))

/-- Sort key of the GET handler: insertion timestamp descending. -/
def tsDesc (a b : StoredDoc) : Prop := b.timestamp_utc ≤ a.timestamp_utc

instance : DecidableRel tsDesc := fun a b => Int.decLe _ _

instance : IsTotal StoredDoc tsDesc := ⟨fun a b => Int.le_total b.timestamp_utc a.timestamp_utc⟩

instance : IsTrans StoredDoc tsDesc := ⟨fun _ _ _ hab hbc => le_trans hbc hab⟩

/-- Embeds collection.find(query).limit(100).sort(timestamp_utc, -1) from
    src/app.py line 257: MongoDB applies the sort before the limit whatever
    the cursor chaining order, so the matching documents are sorted by
    insertion timestamp descending and then capped at 100. -/
def executeFind (store : List StoredDoc) (q : MongoQuery) : List StoredDoc :=
  ((store.filter (docMatches q)).insertionSort tsDesc).take 100

/-- Response of the health check route. -/
structure HealthResult where
  status : Nat
  current_time : String
  api_status : String
  mongodb_status : String
deriving DecidableEq

/-- Embeds health_check from src/app.py lines 281-298: connectivity is
    reported as a body field, the HTTP status is unconditionally 200. -/
def health_check (env : Env) : HealthResult :=
  let db_status := if env.clientUp then "conectado" else "desconectado"
  let db_status := if db_status = "conectado" && !env.pingOk then "desconectado" else db_status
  { status := 200
    current_time := env.nowLocalIso
    api_status := "operacional"
    mongodb_status := db_status }

/-- A routed response of the whole application. -/
inductive RouteResult where
  | authErr (status : Nat) (error : String) (message : String)
  | postRes (r : PostResult)
  | getRes (r : GetResult)
  | healthRes (r : HealthResult)
  | notFound

/-- Embeds the route table of src/app.py: POST /logs and GET /logs are
    wrapped by require_api_key, GET / is not. -/
def dispatch (env : Env) (req : Request) : RouteResult :=
  if req.method = .post ∧ req.path = "/logs" then
    match require_api_key req.apiKey env.realKey with
    | .deny s e m => .authErr s e m
    | .allow => .postRes (receive_unified_log env req)
  else if req.method = .get ∧ req.path = "/logs" then
    match require_api_key req.apiKey env.realKey with
    | .deny s e m => .authErr s e m
    | .allow => .getRes (get_unified_logs env req.args)
  else if req.method = .get ∧ req.path = "/" then
    .healthRes (health_check env)
  else .notFound

/-
  Concrete inputs shared by the witnesses below.
-/

/-- A library oracle on which neither parse ever succeeds. -/
def libTrivial : PyLib where
  fromisoformat := fun _ => none
  strptimeDate := fun _ => none
  localToUtc := fun t => t
  strptime_midnight := fun _ _ h => Option.noConfusion h

/-- A library oracle with a few concrete behaviours of the Python datetime
    library: a full aware parse, a full naive date-only parse, a lenient
    strptime-only parse, and failure everywhere else. -/
def libW : PyLib where
  fromisoformat := fun s =>
    if s = "1970-01-02T10:30:00+00:00" then some ⟨124200000000, some 0⟩
    else if s = "1970-01-02" then some ⟨86400000000, none⟩
    else none
  strptimeDate := fun s => if s = "1970-1-2" then some 86400000000 else none
  localToUtc := fun t => t
  strptime_midnight := by
    intro s d h
    by_cases hs : s = "1970-1-2" <;> simp [hs] at h
    subst h
    decide

def envBase : Env where
  realKey := "chave"
  clientUp := true
  rpaUp := true
  ipaasUp := true
  pingOk := true
  now := 1700000000000000
  nowLocalIso := "2023-11-14T22:13:20"
  lib := libTrivial
  insertOutcome := .ok "65a0"

def envW : Env := { envBase with lib := libW }

/-
  Theorems for the claims.
-/

/-- Claim C10: a request to a protected route whose X-API-Key header is
    present but equal to the empty string is answered 401 (credential
    absent), not 403, because the guard tests Python truthiness of the
    header value. -/
theorem claim_C10 (realKey : String) :
    require_api_key (some "") realKey = .deny 401 "Acesso negado" msgKeyMissing ∧
    require_api_key (some "") realKey ≠ .deny 403 "Acesso negado" msgKeyInvalid := by
  constructor
  · rfl
  · intro h
    simp [require_api_key, optStrTruthy] at h

/-- Claim C4, counterexample: with the header present but empty and a
    non-matching secret, the claim predicts 403 (present and different under
    exact string equality), while the guard answers 401. -/
theorem claim_C4_counterexample :
    require_api_key (some "") "chave-secreta" = .deny 401 "Acesso negado" msgKeyMissing ∧
    require_api_key (some "") "chave-secreta" ≠ .deny 403 "Acesso negado" msgKeyInvalid := by
  decide

/-- Claim C4, amended: an absent or empty X-API-Key header is answered 401;
    a present non-empty header different from the secret is answered 403; a
    present non-empty header equal to the secret passes the guard. -/
theorem claim_C4_amended (k : Option String) (realKey : String) :
    ((k = none ∨ k = some "") →
      require_api_key k realKey = .deny 401 "Acesso negado" msgKeyMissing) ∧
    (∀ s, k = some s → s ≠ "" → s ≠ realKey →
      require_api_key k realKey = .deny 403 "Acesso negado" msgKeyInvalid) ∧
    (∀ s, k = some s → s ≠ "" → s = realKey → require_api_key k realKey = .allow) := by
  refine ⟨?_, ?_, ?_⟩
  · rintro (rfl | rfl) <;> rfl
  · rintro s rfl hs hne
    simp [require_api_key, optStrTruthy, hs, hne]
  · rintro s rfl hs rfl
    simp [require_api_key, optStrTruthy, hs]

theorem claim_C4_witness :
    require_api_key none "chave" = .deny 401 "Acesso negado" msgKeyMissing ∧
    require_api_key (some "errada") "chave" = .deny 403 "Acesso negado" msgKeyInvalid ∧
    require_api_key (some "chave") "chave" = .allow :=
  ⟨(claim_C4_amended none "chave").1 (Or.inl rfl),
   (claim_C4_amended (some "errada") "chave").2.1 "errada" rfl (by decide) (by decide),
   (claim_C4_amended (some "chave") "chave").2.2 "chave" rfl (by decide) rfl⟩

/-- Claim C9: GET / is routed without the credential guard, always answers
    HTTP 200 whatever the storage state, and reports storage connectivity as
    the mongodb_status body field. -/
theorem claim_C9 (env : Env) (req : Request)
    (hm : req.method = .get) (hp : req.path = "/") :
    dispatch env req = .healthRes (health_check env) ∧
    (health_check env).status = 200 ∧
    (health_check env).mongodb_status =
      (if env.clientUp && env.pingOk then "conectado" else "desconectado") ∧
    (∀ k, dispatch env { req with apiKey := k } = dispatch env req) := by
  refine ⟨?_, rfl, ?_, ?_⟩
  · simp [dispatch, hm, hp]
  · cases hc : env.clientUp <;> cases hpk : env.pingOk <;>
      simp [health_check, hc, hpk]
  · intro k
    simp [dispatch, hm, hp]

def reqHealth : Request where
  method := .get
  path := "/"
  apiKey := none
  jsonBody := none
  args := []
  remoteAddr := "127.0.0.1"

theorem claim_C9_witness :
    dispatch envBase reqHealth = .healthRes (health_check envBase) ∧
    (health_check envBase).status = 200 ∧
    (health_check envBase).mongodb_status =
      (if envBase.clientUp && envBase.pingOk then "conectado" else "desconectado") ∧
    (∀ k, dispatch envBase { reqHealth with apiKey := k } = dispatch envBase reqHealth) :=
  claim_C9 envBase reqHealth rfl rfl

def reqC1 : Request where
  method := .post
  path := "/logs"
  apiKey := some "chave"
  jsonBody := some [("type", .str "ipaas"), ("ipaas_codigo", .str "X1"), ("data", .str "texto")]
  args := []
  remoteAddr := "10.0.0.7"

/-- Claim C1 (code bug): an IPAAS body whose data value is a non-empty
    string, not a JSON object, is accepted: the handler answers 201 and
    persists the record with the string stored as execution_details, because
    the isinstance check in the source has an empty body. The spec and the
    comment in the source both require rejection of a non-object value. -/
theorem claim_C1_bug :
    receive_unified_log envBase reqC1 =
      .created "65a0" "ipaas"
        { timestamp_utc := some 1700000000000000
          source_ip := "10.0.0.7"
          log_type := "ipaas"
          level := none
          message := none
          ipaas_codigo := some (.str "X1")
          execution_details := some (.str "texto") } := by
  rfl

/-- Claim C3: every document handed to storage by POST /logs carries a
    non-null server-assigned insertion timestamp, a category tag that is rpa
    or ipaas, and, when the tag is ipaas, a non-empty string ipaas_codigo. -/
lemma isNonEmptyStr_iff (v : JValue) : isNonEmptyStr v = true ↔ ∃ s, v = .str s ∧ s ≠ "" := by
  cases v <;> simp [isNonEmptyStr]

theorem claim_C3 (env : Env) (req : Request) (oid lt : String) (doc : LogDocument)
    (h : receive_unified_log env req = .created oid lt doc) :
    doc.timestamp_utc.isSome ∧
    (doc.log_type = "rpa" ∨ doc.log_type = "ipaas") ∧
    (doc.log_type = "ipaas" → ∃ s, doc.ipaas_codigo = some (.str s) ∧ s ≠ "") := by
  simp only [receive_unified_log, do_insert] at h
  repeat' split at h
  all_goals first
    | exact PostResult.noConfusion h
    | (injection h with h1 h2 h3
       subst h3
       simp_all [isNonEmptyStr_iff])

def reqRpa : Request where
  method := .post
  path := "/logs"
  apiKey := some "chave"
  jsonBody := some [("type", .str "rpa"), ("level", .str "info"), ("message", .str "oi")]
  args := []
  remoteAddr := "10.0.0.8"

def docRpa : LogDocument where
  timestamp_utc := some 1700000000000000
  source_ip := "10.0.0.8"
  log_type := "rpa"
  level := some (.str "info")
  message := some (.str "oi")
  ipaas_codigo := none
  execution_details := none

theorem claim_C3_witness :
    docRpa.timestamp_utc.isSome ∧
    (docRpa.log_type = "rpa" ∨ docRpa.log_type = "ipaas") ∧
    (docRpa.log_type = "ipaas" → ∃ s, docRpa.ipaas_codigo = some (.str s) ∧ s ≠ "") :=
  claim_C3 envBase reqRpa "65a0" "rpa" docRpa (by rfl)

/-
  Helper lemmas about the GET handler, shared by several claims.
-/

lemma logs_query_ok_cat (lib : PyLib) (args : List (String × String))
    (k fld ltt : String) (cat : LogCategory) (f : List (String × String))
    (c : LogCategory) (q : MongoQuery)
    (h : logs_query lib args k fld ltt cat = .ok f c q) : c = cat := by
  simp only [logs_query] at h
  split at h
  · exact GetResult.noConfusion h
  · injection h with h1 h2 h3
    exact h2.symm

lemma logs_query_ok_code (lib : PyLib) (args : List (String × String))
    (k fld ltt : String) (cat : LogCategory) (f : List (String × String))
    (c : LogCategory) (q : MongoQuery)
    (h : logs_query lib args k fld ltt cat = .ok f c q) :
    q.codeField =
      (if optStrTruthy (argsGet args k) then some (fld, (argsGet args k).getD "") else none) := by
  simp only [logs_query] at h
  split at h
  · exact GetResult.noConfusion h
  · injection h with h1 h2 h3
    subst h3
    rfl

lemma logs_query_ok_date (lib : PyLib) (args : List (String × String))
    (k fld ltt : String) (cat : LogCategory) (f : List (String × String))
    (c : LogCategory) (q : MongoQuery)
    (h : logs_query lib args k fld ltt cat = .ok f c q) :
    buildDateQuery lib (argsGet args "data_inicio") (argsGet args "data_fim") = .ok q.date := by
  simp only [logs_query] at h
  split at h
  · exact GetResult.noConfusion h
  · injection h with h1 h2 h3
    subst h3
    rename_i heq
    exact heq

lemma logs_query_err_shape (lib : PyLib) (args : List (String × String))
    (k fld ltt : String) (cat : LogCategory) (st : Nat) (e : String) (m : Option String)
    (h : logs_query lib args k fld ltt cat = .err st e m) :
    st = 400 ∧ m = none := by
  simp only [logs_query] at h
  split at h
  · injection h with h1 h2 h3
    exact ⟨h1.symm, h3.symm⟩
  · exact GetResult.noConfusion h

/-- Inversion of the routing block of get_unified_logs: a successful result
    comes from one of the two category branches. -/
lemma get_ok_inv (env : Env) (args : List (String × String))
    (f : List (String × String)) (cat : LogCategory) (q : MongoQuery)
    (h : get_unified_logs env args = .ok f cat q) :
    (cat = .rpa ∧
      logs_query env.lib args "robo_codigo" "message.summary.robo_codigo"
        (pyLower ((argsGet args "type").getD "")) .rpa = .ok f cat q) ∨
    (cat = .ipaas ∧
      logs_query env.lib args "ipaas_codigo" "ipaas_codigo"
        (pyLower ((argsGet args "type").getD "")) .ipaas = .ok f cat q) := by
  simp only [get_unified_logs] at h
  split at h
  · exact GetResult.noConfusion h
  · split at h
    · split at h
      · exact GetResult.noConfusion h
      · exact Or.inl ⟨logs_query_ok_cat _ _ _ _ _ _ _ _ _ h, h⟩
    · split at h
      · split at h
        · exact GetResult.noConfusion h
        · exact Or.inr ⟨logs_query_ok_cat _ _ _ _ _ _ _ _ _ h, h⟩
      · exact GetResult.noConfusion h

/-- Claim C5, counterexample: with the type parameter present but bound to
    the empty value, the claim predicts the unrecognized-value 400 (the empty
    string resolves to neither category), yet the handler answers with the
    missing-parameter message, because the presence test is Python
    truthiness of the value. -/
theorem claim_C5_counterexample :
    argsGet [("type", "")] "type" = some "" ∧
    pyLower "" ≠ "rpa" ∧ pyLower "" ≠ "ipaas" ∧
    get_unified_logs envBase [("type", "")] =
      .err 400 "Parâmetro ausente." (some msgTypeMissing) ∧
    get_unified_logs envBase [("type", "")] ≠
      .err 400 "Tipo de log inválido." (some msgTypeInvalid) := by
  decide

/-- Claim C5, amended: a missing type query parameter, or one present with an
    empty value, gives the missing-parameter 400; a present non-empty
    unrecognized type value gives the invalid-type 400, with a message
    distinct from the missing case; and a type value is resolved
    case-insensitively to exactly one of the two categories. -/
theorem claim_C5_amended (env : Env) (args : List (String × String)) :
    (argsGet args "type" = none →
      get_unified_logs env args = .err 400 "Parâmetro ausente." (some msgTypeMissing)) ∧
    (argsGet args "type" = some "" →
      get_unified_logs env args = .err 400 "Parâmetro ausente." (some msgTypeMissing)) ∧
    (∀ t, argsGet args "type" = some t → t ≠ "" →
      pyLower t ≠ "rpa" → pyLower t ≠ "ipaas" →
      get_unified_logs env args = .err 400 "Tipo de log inválido." (some msgTypeInvalid)) ∧
    ("Parâmetro ausente." ≠ "Tipo de log inválido." ∧ msgTypeMissing ≠ msgTypeInvalid) ∧
    (∀ t, argsGet args "type" = some t → pyLower t = "rpa" →
      get_unified_logs env args ≠ .err 400 "Parâmetro ausente." (some msgTypeMissing) ∧
      get_unified_logs env args ≠ .err 400 "Tipo de log inválido." (some msgTypeInvalid) ∧
      (∀ f c q, get_unified_logs env args = .ok f c q → c = .rpa)) ∧
    (∀ t, argsGet args "type" = some t → pyLower t = "ipaas" →
      get_unified_logs env args ≠ .err 400 "Parâmetro ausente." (some msgTypeMissing) ∧
      get_unified_logs env args ≠ .err 400 "Tipo de log inválido." (some msgTypeInvalid) ∧
      (∀ f c q, get_unified_logs env args = .ok f c q → c = .ipaas)) := by
  refine ⟨?_, ?_, ?_, ⟨by decide, by decide⟩, ?_, ?_⟩
  · intro h
    simp [get_unified_logs, h, optStrTruthy]
  · intro h
    simp [get_unified_logs, h, optStrTruthy]
  · intro t h ht hr hi
    simp [get_unified_logs, h, optStrTruthy, ht, hr, hi]
  · intro t h hlow
    have ht' : t ≠ "" := fun h0 => by subst h0; simp [pyLower] at hlow
    by_cases hup : env.rpaUp = true
    · have hG : get_unified_logs env args =
          logs_query env.lib args "robo_codigo" "message.summary.robo_codigo" "rpa" .rpa := by
        simp [get_unified_logs, h, optStrTruthy, ht', hlow, hup]
      rw [hG]
      exact ⟨fun hc => Option.noConfusion (logs_query_err_shape _ _ _ _ _ _ _ _ _ hc).2,
             fun hc => Option.noConfusion (logs_query_err_shape _ _ _ _ _ _ _ _ _ hc).2,
             fun f c q hq => logs_query_ok_cat _ _ _ _ _ _ _ _ _ hq⟩
    · have hup' : env.rpaUp = false := by simpa using hup
      have hG : get_unified_logs env args =
          .err 503 "Serviço indisponível (RPA). Conexão com o banco de dados falhou." none := by
        simp [get_unified_logs, h, optStrTruthy, ht', hlow, hup']
      rw [hG]
      exact ⟨by simp, by simp, fun f c q hq => GetResult.noConfusion hq⟩
  · intro t h hlow
    have ht' : t ≠ "" := fun h0 => by subst h0; simp [pyLower] at hlow
    have hnr : pyLower t ≠ "rpa" := by rw [hlow]; decide
    by_cases hup : env.ipaasUp = true
    · have hG : get_unified_logs env args =
          logs_query env.lib args "ipaas_codigo" "ipaas_codigo" "ipaas" .ipaas := by
        simp [get_unified_logs, h, optStrTruthy, ht', hlow, hnr, hup]
      rw [hG]
      exact ⟨fun hc => Option.noConfusion (logs_query_err_shape _ _ _ _ _ _ _ _ _ hc).2,
             fun hc => Option.noConfusion (logs_query_err_shape _ _ _ _ _ _ _ _ _ hc).2,
             fun f c q hq => logs_query_ok_cat _ _ _ _ _ _ _ _ _ hq⟩
    · have hup' : env.ipaasUp = false := by simpa using hup
      have hG : get_unified_logs env args =
          .err 503 "Serviço indisponível (iPaaS). Conexão com o banco de dados falhou." none := by
        simp [get_unified_logs, h, optStrTruthy, ht', hlow, hnr, hup']
      rw [hG]
      exact ⟨by simp, by simp, fun f c q hq => GetResult.noConfusion hq⟩

theorem claim_C5_witness :
    get_unified_logs envBase [] = .err 400 "Parâmetro ausente." (some msgTypeMissing) ∧
    get_unified_logs envBase [("type", "")] =
      .err 400 "Parâmetro ausente." (some msgTypeMissing) ∧
    get_unified_logs envBase [("type", "xml")] =
      .err 400 "Tipo de log inválido." (some msgTypeInvalid) ∧
    (∀ f c q, get_unified_logs envBase [("type", "RPA")] = .ok f c q → c = .rpa) :=
  ⟨(claim_C5_amended envBase []).1 rfl,
   (claim_C5_amended envBase [("type", "")]).2.1 rfl,
   (claim_C5_amended envBase [("type", "xml")]).2.2.1 "xml" rfl (by decide) (by decide) (by decide),
   ((claim_C5_amended envBase [("type", "RPA")]).2.2.2.2.1 "RPA" rfl (by decide)).2.2⟩

lemma parse_date_empty (lib : PyLib) : parse_date lib "" = (none, false) := rfl

lemma parse_date_some_ne (lib : PyLib) (s : String) (t : Int)
    (ht : (parse_date lib s).1 = some t) : s ≠ "" := by
  intro h0
  subst h0
  rw [parse_date_empty] at ht
  simp at ht

lemma buildDateQuery_ok_inv (lib : PyLib) (i fi : Option String) (dq : DateQ)
    (h : buildDateQuery lib i fi = .ok dq) :
    ∃ dq0, inicioQuery lib i = .ok dq0 ∧ fimQuery lib fi dq0 = .ok dq := by
  simp only [buildDateQuery] at h
  split at h
  · exact Except.noConfusion h
  · rename_i dq0 heq
    exact ⟨dq0, heq, h⟩

lemma inicioQuery_ok_shape (lib : PyLib) (i : Option String) (dq0 : DateQ)
    (h : inicioQuery lib i = .ok dq0) : dq0.lt = none ∧ dq0.lte = none := by
  simp only [inicioQuery] at h
  split at h
  · split at h
    · injection h with h
      subst h
      exact ⟨rfl, rfl⟩
    · exact Except.noConfusion h
  · injection h with h
    subst h
    exact ⟨rfl, rfl⟩

lemma inicioQuery_ok_gte (lib : PyLib) (s : String) (dq0 : DateQ)
    (h : inicioQuery lib (some s) = .ok dq0)
    (t : Int) (ht : (parse_date lib s).1 = some t) : dq0.gte = some t := by
  have hs : s ≠ "" := parse_date_some_ne lib s t ht
  cases hps : parse_date lib s with
  | mk p1 p2 =>
    rw [hps] at ht
    simp at ht
    subst ht
    simp only [inicioQuery, Option.getD_some] at h
    rw [show optStrTruthy (some s) = true by simp [optStrTruthy, hs], if_pos rfl, hps] at h
    injection h with h
    subst h
    rfl

lemma fimQuery_ok_gte (lib : PyLib) (fi : Option String) (dq0 dq : DateQ)
    (h : fimQuery lib fi dq0 = .ok dq) : dq.gte = dq0.gte := by
  simp only [fimQuery] at h
  split at h
  · split at h
    · split at h <;> (injection h with h; subst h; rfl)
    · exact Except.noConfusion h
  · injection h with h
    subst h
    rfl

lemma fimQuery_ok_bounds (lib : PyLib) (s : String) (dq0 dq : DateQ)
    (h : fimQuery lib (some s) dq0 = .ok dq)
    (t : Int) (ht : (parse_date lib s).1 = some t) :
    ((parse_date lib s).2 = false → dq.lt = some (t + usPerDay) ∧ dq.lte = dq0.lte) ∧
    ((parse_date lib s).2 = true → dq.lte = some t ∧ dq.lt = dq0.lt) := by
  have hs : s ≠ "" := parse_date_some_ne lib s t ht
  cases hps : parse_date lib s with
  | mk p1 p2 =>
    rw [hps] at ht
    simp at ht
    subst ht
    simp only [fimQuery, Option.getD_some] at h
    rw [show optStrTruthy (some s) = true by simp [optStrTruthy, hs], if_pos rfl, hps] at h
    cases p2
    · simp only [Bool.not_false, if_pos] at h
      injection h with h
      subst h
      exact ⟨fun _ => ⟨rfl, rfl⟩, fun hc => Bool.noConfusion hc⟩
    · simp only [Bool.not_true, Bool.false_eq_true, if_neg, if_false] at h
      injection h with h
      subst h
      exact ⟨fun hc => Bool.noConfusion hc, fun _ => ⟨rfl, rfl⟩⟩

/-- Claim C2: for a parseable data_fim the upper bound on the insertion
    timestamp is exclusive at the parsed instant advanced by one day when no
    time component was reported, inclusive at the exact instant when one was;
    for a parseable data_inicio the lower bound is inclusive at the parsed
    instant. -/
theorem claim_C2 (env : Env) (args : List (String × String))
    (f : List (String × String)) (cat : LogCategory) (q : MongoQuery)
    (h : get_unified_logs env args = .ok f cat q) :
    (∀ s t, argsGet args "data_fim" = some s → (parse_date env.lib s).1 = some t →
      (((parse_date env.lib s).2 = false →
          q.date.lt = some (t + usPerDay) ∧ q.date.lte = none) ∧
       ((parse_date env.lib s).2 = true →
          q.date.lte = some t ∧ q.date.lt = none))) ∧
    (∀ s t, argsGet args "data_inicio" = some s → (parse_date env.lib s).1 = some t →
      q.date.gte = some t) := by
  have hbd : buildDateQuery env.lib (argsGet args "data_inicio") (argsGet args "data_fim") =
      .ok q.date := by
    rcases get_ok_inv env args f cat q h with ⟨_, hq⟩ | ⟨_, hq⟩ <;>
      exact logs_query_ok_date _ _ _ _ _ _ _ _ _ hq
  obtain ⟨dq0, hi0, hf0⟩ := buildDateQuery_ok_inv _ _ _ _ hbd
  have hshape := inicioQuery_ok_shape _ _ _ hi0
  constructor
  · intro s t hsf ht
    rw [hsf] at hf0
    have hb := fimQuery_ok_bounds _ _ _ _ hf0 t ht
    exact ⟨fun h2 => ⟨(hb.1 h2).1, by rw [(hb.1 h2).2, hshape.2]⟩,
           fun h2 => ⟨(hb.2 h2).1, by rw [(hb.2 h2).2, hshape.1]⟩⟩
  · intro s t hsi ht
    rw [hsi] at hi0
    have hg := inicioQuery_ok_gte _ _ _ hi0 t ht
    rw [fimQuery_ok_gte _ _ _ _ hf0, hg]

def argsC2a : List (String × String) :=
  [("type", "rpa"), ("data_inicio", "1970-1-2"), ("data_fim", "1970-01-02")]

def qC2a : MongoQuery :=
  { codeField := none,
    date := { gte := some 86400000000, lt := some 172800000000, lte := none } }

def argsC2b : List (String × String) := [("type", "rpa"), ("data_fim", "1970-01-02T10:30:00Z")]

def qC2b : MongoQuery :=
  { codeField := none, date := { gte := none, lt := none, lte := some 124200000000 } }

theorem claim_C2_witness :
    qC2a.date.gte = some 86400000000 ∧
    qC2a.date.lt = some (86400000000 + usPerDay) ∧ qC2a.date.lte = none ∧
    qC2b.date.lte = some 124200000000 ∧ qC2b.date.lt = none := by
  have h1 := claim_C2 envW argsC2a argsC2a .rpa qC2a (by decide)
  have h2 := claim_C2 envW argsC2b argsC2b .rpa qC2b (by decide)
  have ha := (h1.1 "1970-01-02" 86400000000 rfl (by decide)).1 (by decide)
  have hg := h1.2 "1970-1-2" 86400000000 rfl (by decide)
  have hb := (h2.1 "1970-01-02T10:30:00Z" 124200000000 rfl (by decide)).2 (by decide)
  exact ⟨hg, ha.1, ha.2, hb.1, hb.2⟩

/-- Claim C7: a successful full parse reports the time component as explicit
    exactly when some wall-clock component of the parsed value is non-zero
    (equivalently, exactly when the parsed value is not a true midnight, so
    true midnight is indistinguishable from date-only input); on full-parse
    failure a successful date-only parse yields the calendar date at implicit
    midnight with the flag false; and when both parses fail the query is
    rejected with a 400 error naming the failing parameter. -/
theorem claim_C7 (lib : PyLib) (args : List (String × String)) (s : String) (hs : s ≠ "") :
    (∀ f0, lib.fromisoformat (replaceZ s) = some f0 →
      (parse_date lib s).1 = some (toUtc lib f0) ∧
      ((parse_date lib s).2 = true ↔
        (hourOf f0.tLocal ≠ 0 ∨ minuteOf f0.tLocal ≠ 0 ∨ secondOf f0.tLocal ≠ 0 ∨
         microsecondOf f0.tLocal ≠ 0)) ∧
      ((parse_date lib s).2 = false ↔ f0.tLocal % usPerDay = 0)) ∧
    (lib.fromisoformat (replaceZ s) = none →
      (∀ d, lib.strptimeDate s = some d →
        parse_date lib s = (some d, false) ∧ d % usPerDay = 0) ∧
      (lib.strptimeDate s = none → parse_date lib s = (none, false))) ∧
    ((parse_date lib s).1 = none →
      ∀ k fld ltt cat,
        (argsGet args "data_inicio" = some s →
          logs_query lib args k fld ltt cat = .err 400 msgBadInicio none) ∧
        (∀ dq0, inicioQuery lib (argsGet args "data_inicio") = .ok dq0 →
          argsGet args "data_fim" = some s →
          logs_query lib args k fld ltt cat = .err 400 msgBadFim none)) := by
  refine ⟨?_, ?_, ?_⟩
  · intro f0 hf
    have hval : parse_date lib s = (some (toUtc lib f0),
        decide (hourOf f0.tLocal ≠ 0 ∨ minuteOf f0.tLocal ≠ 0 ∨ secondOf f0.tLocal ≠ 0 ∨
          microsecondOf f0.tLocal ≠ 0)) := by
      simp only [parse_date, hf]
      rw [if_neg hs]
    rw [hval]
    refine ⟨rfl, by simp, ?_⟩
    show decide _ = false ↔ _
    rw [decide_eq_false_iff_not]
    push_neg
    simp only [hourOf, minuteOf, secondOf, microsecondOf, usPerDay]
    omega
  · intro hf
    constructor
    · intro d hd
      refine ⟨?_, lib.strptime_midnight s d hd⟩
      simp only [parse_date, hf, hd]
      rw [if_neg hs]
    · intro hd
      simp only [parse_date, hf, hd]
      rw [if_neg hs]
  · intro hnone k fld ltt cat
    cases hps : parse_date lib s with
    | mk p1 p2 =>
      rw [hps] at hnone
      simp at hnone
      subst hnone
      constructor
      · intro hi
        simp [logs_query, buildDateQuery, inicioQuery, hi, optStrTruthy, hs, hps]
      · intro dq0 h0 hfim
        simp [logs_query, buildDateQuery, fimQuery, h0, hfim, optStrTruthy, hs, hps]

theorem claim_C7_witness :
    (parse_date libW "1970-01-02T10:30:00Z").1 = some 124200000000 ∧
    ((parse_date libW "1970-01-02T10:30:00Z").2 = true ↔
      (hourOf 124200000000 ≠ 0 ∨ minuteOf 124200000000 ≠ 0 ∨ secondOf 124200000000 ≠ 0 ∨
       microsecondOf 124200000000 ≠ 0)) ∧
    parse_date libW "1970-1-2" = (some 86400000000, false) ∧
    logs_query libW [("type", "rpa"), ("data_inicio", "garbage")] "robo_codigo"
      "message.summary.robo_codigo" "rpa" .rpa = .err 400 msgBadInicio none ∧
    logs_query libW [("type", "rpa"), ("data_fim", "garbage")] "robo_codigo"
      "message.summary.robo_codigo" "rpa" .rpa = .err 400 msgBadFim none ∧
    logs_query libW [("type", "rpa"), ("data_inicio", "1970-1-2"), ("data_fim", "garbage")]
      "robo_codigo" "message.summary.robo_codigo" "rpa" .rpa = .err 400 msgBadFim none := by
  have h1 := claim_C7 libW [] "1970-01-02T10:30:00Z" (by decide)
  have h2 := claim_C7 libW [] "1970-1-2" (by decide)
  have h3 := claim_C7 libW [("type", "rpa"), ("data_inicio", "garbage")] "garbage" (by decide)
  have h4 := claim_C7 libW [("type", "rpa"), ("data_fim", "garbage")] "garbage" (by decide)
  have h5 := claim_C7 libW [("type", "rpa"), ("data_inicio", "1970-1-2"), ("data_fim", "garbage")]
    "garbage" (by decide)
  refine ⟨?_, ?_, ?_, ?_, ?_, ?_⟩
  · exact (h1.1 ⟨124200000000, some 0⟩ (by rfl)).1
  · exact (h1.1 ⟨124200000000, some 0⟩ (by rfl)).2.1
  · exact ((h2.2.1 (by rfl)).1 86400000000 (by rfl)).1
  · exact (h3.2.2 (by rfl) "robo_codigo" "message.summary.robo_codigo" "rpa" .rpa).1 rfl
  · exact (h4.2.2 (by rfl) "robo_codigo" "message.summary.robo_codigo" "rpa" .rpa).2
      { gte := none, lt := none, lte := none } (by rfl) rfl
  · exact (h5.2.2 (by rfl) "robo_codigo" "message.summary.robo_codigo" "rpa" .rpa).2
      { gte := some 86400000000, lt := none, lte := none } (by rfl) rfl

/-- Claim C8, counterexample: with the code filter key present in the query
    string but bound to the empty value, the claim predicts an equality
    constraint on the mapped field, while the handler adds no constraint
    (the presence test is Python truthiness of the value). -/
theorem claim_C8_counterexample :
    argsGet [("type", "rpa"), ("robo_codigo", "")] "robo_codigo" = some "" ∧
    get_unified_logs envBase [("type", "rpa"), ("robo_codigo", "")] =
      .ok [("type", "rpa")] .rpa { codeField := none, date := {} } :=
  ⟨rfl, by decide⟩

/-- Claim C8, amended: a present non-empty code filter value produces an
    equality constraint on the category-mapped field path (the nested
    message.summary.robo_codigo for RPA, the top-level ipaas_codigo for
    IPAAS); an absent or empty value produces no constraint. -/
theorem claim_C8_amended (env : Env) (args : List (String × String))
    (f : List (String × String)) (cat : LogCategory) (q : MongoQuery)
    (h : get_unified_logs env args = .ok f cat q) :
    (cat = .rpa →
      (∀ v, argsGet args "robo_codigo" = some v → v ≠ "" →
        q.codeField = some ("message.summary.robo_codigo", v)) ∧
      (argsGet args "robo_codigo" = none → q.codeField = none) ∧
      (argsGet args "robo_codigo" = some "" → q.codeField = none)) ∧
    (cat = .ipaas →
      (∀ v, argsGet args "ipaas_codigo" = some v → v ≠ "" →
        q.codeField = some ("ipaas_codigo", v)) ∧
      (argsGet args "ipaas_codigo" = none → q.codeField = none) ∧
      (argsGet args "ipaas_codigo" = some "" → q.codeField = none)) := by
  rcases get_ok_inv env args f cat q h with ⟨hc, hq⟩ | ⟨hc, hq⟩
  · have hcode := logs_query_ok_code _ _ _ _ _ _ _ _ _ hq
    subst hc
    refine ⟨fun _ => ⟨?_, ?_, ?_⟩, fun hc2 => absurd hc2 (by decide)⟩
    · intro v hv hne
      rw [hcode, hv]
      simp [optStrTruthy, hne]
    · intro hv
      rw [hcode, hv]
      simp [optStrTruthy]
    · intro hv
      rw [hcode, hv]
      simp [optStrTruthy]
  · have hcode := logs_query_ok_code _ _ _ _ _ _ _ _ _ hq
    subst hc
    refine ⟨fun hc2 => absurd hc2 (by decide), fun _ => ⟨?_, ?_, ?_⟩⟩
    · intro v hv hne
      rw [hcode, hv]
      simp [optStrTruthy, hne]
    · intro hv
      rw [hcode, hv]
      simp [optStrTruthy]
    · intro hv
      rw [hcode, hv]
      simp [optStrTruthy]

def argsC8a : List (String × String) := [("type", "rpa"), ("robo_codigo", "R1")]

def qC8a : MongoQuery := { codeField := some ("message.summary.robo_codigo", "R1"), date := {} }

def argsC8b : List (String × String) := [("type", "ipaas"), ("ipaas_codigo", "X1")]

def qC8b : MongoQuery := { codeField := some ("ipaas_codigo", "X1"), date := {} }

theorem claim_C8_witness :
    qC8a.codeField = some ("message.summary.robo_codigo", "R1") ∧
    qC8b.codeField = some ("ipaas_codigo", "X1") := by
  have h1 := claim_C8_amended envBase argsC8a argsC8a .rpa qC8a (by decide)
  have h2 := claim_C8_amended envBase argsC8b argsC8b .ipaas qC8b (by decide)
  exact ⟨(h1.1 rfl).1 "R1" rfl (by decide), (h2.2 rfl).1 "X1" rfl (by decide)⟩

/-- Claim C6: the record list returned for a successful GET /logs query
    never exceeds 100 records and is sorted by insertion timestamp
    descending (most recent first). -/
theorem claim_C6 (env : Env) (args : List (String × String))
    (f : List (String × String)) (cat : LogCategory) (q : MongoQuery)
    (store : List StoredDoc)
    (h : get_unified_logs env args = .ok f cat q) :
    (executeFind store q).length ≤ 100 ∧ (executeFind store q).Pairwise tsDesc := by
  constructor
  · exact List.length_take_le 100 _
  · exact List.Pairwise.sublist (List.take_sublist 100 _) (List.sorted_insertionSort tsDesc _)

def storeW : List StoredDoc :=
  [{ timestamp_utc := 5, fields := [] },
   { timestamp_utc := 9, fields := [] },
   { timestamp_utc := 1, fields := [] }]

theorem claim_C6_witness :
    (executeFind storeW { codeField := none, date := {} }).length ≤ 100 ∧
    (executeFind storeW { codeField := none, date := {} }).Pairwise tsDesc :=
  claim_C6 envBase [("type", "rpa")] [("type", "rpa")] .rpa { codeField := none, date := {} }
    storeW (by decide)

end ApiLog
